import Mathlib

/-!
# Verification of the Organic Green checkout subsystem

A shallow embedding of the cart/checkout core of the repository:

* `apps/products/models.py` — `Product` (price, sale_price, stock, is_active);
* `apps/cart/models.py` — `Cart`, `CartItem` (`get_unit_price`);
* `apps/cart/utils.py` — `get_or_create_cart` (anonymous-cart merge);
* `apps/cart/views.py` — `CartViewSet.add_item`, `update_item`, `remove_item`;
* `apps/order/models.py` — `Order.generate_order_number`, `Order.save`,
  `OrderItem.save`;
* `apps/order/serializers.py` — `OrderCreateSerializer.create` (the checkout
  transaction).

Django `Decimal` money values are embedded as `Int` (every `Decimal(…, 2)`
value is an exact multiple of 0.01, so integers in hundredths are exact);
`PositiveIntegerField` quantities are `Nat`; the product `stock` column is
kept as `Int` so that non-negativity is a provable property rather than a
typing artifact.  Database rows are lists of records; a Django queryset
`filter`/`find` becomes a list `filter`/`find?`.  `transaction.atomic` and
exception rollback are embedded as `Except`: an error result leaves the
committed state untouched.
-/

deriving instance DecidableEq for Except

/-- `apps/products/models.py` `Product`: the fields the cart/checkout core
reads.  `pid` stands for the primary key, `stock` is `Int` so that stock
non-negativity can be stated and proved. -/
structure Product where
  pid : Nat
  name_uz : String
  price : Int
  sale_price : Option Int
  stock : Int
  is_active : Bool
deriving Repr, DecidableEq

/-- `apps/cart/models.py` `CartItem`: primary key `item_id`, foreign key
`product` (a product pid) and a `PositiveIntegerField` quantity. -/
structure CartItem where
  item_id : Nat
  product : Nat
  quantity : Nat
deriving Repr, DecidableEq

/-- A calendar date, as used by `timezone.now().date()`. -/
structure Date where
  year : Nat
  month : Nat
  day : Nat
deriving Repr, DecidableEq

/-- `apps/order/models.py` `OrderItem`: the snapshot row created by the
checkout transaction. -/
structure OrderItemRec where
  product : Nat
  product_name : String
  quantity : Nat
  unit_price : Int
  total_price : Int
  is_sale_price : Bool
deriving Repr, DecidableEq

/-- `apps/order/models.py` `Order`: the fields the claims are about.
`created_date` is the calendar date of `created_at`. -/
structure OrderRec where
  order_number : String
  created_date : Date
  subtotal : Int
  discount_total : Int
  total_price : Int
  total_items : Nat
  items : List OrderItemRec
deriving Repr, DecidableEq

/-- The relational state the checkout transaction touches: the product
table, the current cart lines and the committed orders. -/
structure State where
  products : List Product
  cart : List CartItem
  orders : List OrderRec
deriving Repr, DecidableEq

/-- `Product.objects.get(pk == pid)` on the embedded product table. -/
def findProduct (ps : List Product) (pid : Nat) : Option Product :=
  ps.find? (fun p => p.pid == pid)

/-- Python truthiness of a nullable `Decimal` field: `None` and `0` are
falsy, every other value is truthy. -/
def pyTruthy : Option Int → Bool
  | none => false
  | some v => v != 0

/-- `apps/cart/models.py` `CartItem.get_unit_price`:
`self.product.sale_price if self.product.sale_price else self.product.price`.
The sale price is used whenever it is truthy (present and non-zero); the
source performs no comparison against the list price here. -/
def get_unit_price (p : Product) : Int :=
  match p.sale_price with
  | some v => if v != 0 then v else p.price
  | none => p.price

/-- `apps/order/serializers.py` line 244:
`bool(product.sale_price and product.sale_price < product.price)`. -/
def is_sale_flag (p : Product) : Bool :=
  match p.sale_price with
  | some v => v != 0 && v < p.price
  | none => false

/-- The specification wording for the unit price (claim C2): the sale price
only when it is present *and strictly lower* than the list price, otherwise
the list price.  Kept separate from `get_unit_price`, which is translated
from the source, so the two can be compared. -/
def claimUnitPrice (p : Product) : Int :=
  match p.sale_price with
  | some v => if v < p.price then v else p.price
  | none => p.price

/-- `f"{n:0wd}"` / `strftime` zero padding: decimal digits of `n`,
left-padded with zeros to width `w`. -/
def padNum (w : Nat) (n : Nat) : String :=
  let s := toString n
  String.mk (List.replicate (w - s.length) '0') ++ s

/-- `today.strftime(percent-Y percent-m percent-d)`: `YYYYMMDD`. -/
def fmtDate (d : Date) : String :=
  padNum 4 d.year ++ padNum 2 d.month ++ padNum 2 d.day

/-- `Order.objects.filter(created_at__date=today).count()`: how many orders
were created on day `d`. -/
def dayCount (orders : List OrderRec) (d : Date) : Nat :=
  (orders.filter (fun o => o.created_date == d)).length

/-- `apps/order/models.py` `Order.generate_order_number`: count the day's
orders and format `OG-YYYYMMDD-NNNNN` with `NNNNN = count + 1` zero-padded
to five digits. -/
def generate_order_number (orders : List OrderRec) (today : Date) : String :=
  "OG-" ++ fmtDate today ++ "-" ++ padNum 5 (dayCount orders today + 1)

/-- The rows the `select_for_update()` in `generate_order_number` can lock:
the day's *existing* order rows.  A `SELECT … FOR UPDATE` blocks a
concurrent transaction only through these rows; it cannot lock rows that do
not exist yet. -/
def lockedRows (orders : List OrderRec) (d : Date) : List OrderRec :=
  orders.filter (fun o => o.created_date == d)

/-- Committing one order row against the committed order list.  The
`unique=True` constraint on `Order.order_number` rejects a duplicate number
(`IntegrityError`, rolling the transaction back); otherwise the row is
appended. -/
def commitOrder (committed : List OrderRec) (o : OrderRec) :
    Except Unit (List OrderRec) :=
  if committed.any (fun x => x.order_number == o.order_number) then .error ()
  else .ok (committed ++ [o])

/-- `apps/order/models.py` `Order.save`: backfill a blank `order_number`
from `generate_order_number`, then recompute
`total_price = subtotal - discount_total` on every save. -/
def order_save (orders : List OrderRec) (today : Date) (o : OrderRec) : OrderRec :=
  let o1 := if o.order_number = "" then
    { o with order_number := generate_order_number orders today } else o
  { o1 with total_price := o1.subtotal - o1.discount_total }

/-- `apps/order/models.py` `OrderItem.save`: recompute
`total_price = quantity * unit_price` on every save. -/
def orderItem_save (oi : OrderItemRec) : OrderItemRec :=
  { oi with total_price := (oi.quantity : Int) * oi.unit_price }

/-- `cart.items.select_for_update().order_by('product_id')` in the checkout
transaction: the cart lines sorted by product id (ascending), fixing the
lock-acquisition order. -/
def sortCart (l : List CartItem) : List CartItem :=
  l.insertionSort (fun a b => a.product ≤ b.product)

/-- The stock column of product `pid`; `0` for a pid that resolves to no
row (unreachable through the `CartItem.product` foreign key). -/
def stockOf (ps : List Product) (pid : Nat) : Int :=
  match findProduct ps pid with
  | some p => p.stock
  | none => 0

/-- The re-validation loop of `OrderCreateSerializer.create` run under the
row locks (`serializers.py` lines 190-205): collect one message per
offending line — inactive product, or requested quantity above current
stock.  All offending lines are collected before failing. -/
def stockErrorsOf (ps : List Product) (items : List CartItem) : List String :=
  items.filterMap (fun it =>
    match findProduct ps it.product with
    | none => none
    | some p =>
      if !p.is_active then some (p.name_uz ++ " - mahsulot faol emas")
      else if (it.quantity : Int) > p.stock then
        some (p.name_uz ++ " - yetarli emas. Talab: " ++ toString it.quantity
          ++ ", mavjud: " ++ toString p.stock)
      else none)

/-- `cart_item.get_unit_price()` resolved through the product table at the
moment of the call (commit time). -/
def unitPriceOf (ps : List Product) (it : CartItem) : Int :=
  match findProduct ps it.product with
  | some p => get_unit_price p
  | none => 0

/-- `serializers.py` lines 208-216: `subtotal` accumulated as
`unit_price * quantity` over the locked cart lines. -/
def cartSubtotal (ps : List Product) (items : List CartItem) : Int :=
  (items.map (fun it => unitPriceOf ps it * (it.quantity : Int))).sum

/-- The `OrderItem.objects.create(...)` snapshot of one locked cart line
(`serializers.py` lines 238-245), with `OrderItem.save` filling in
`total_price`.  The checkout loop interleaves these creations with the
stock decrements, but a decrement writes only the `stock` column and the
snapshot reads only `name_uz`, `price` and `sale_price`, so reading from
the pre-decrement table is exact. -/
def mkOrderItem (ps : List Product) (it : CartItem) : OrderItemRec :=
  orderItem_save
    { product := it.product
      product_name := (match findProduct ps it.product with
        | some p => p.name_uz
        | none => "")
      quantity := it.quantity
      unit_price := unitPriceOf ps it
      total_price := 0
      is_sale_price := (match findProduct ps it.product with
        | some p => is_sale_flag p
        | none => false) }

/-- `product.stock -= cart_item.quantity; product.save(...)` folded over
the locked cart lines (`serializers.py` lines 247-249). -/
def decrementStocks (ps : List Product) (items : List CartItem) : List Product :=
  items.foldl
    (fun acc it => acc.map (fun p =>
      if p.pid == it.product then { p with stock := p.stock - (it.quantity : Int) }
      else p))
    ps

/-- Failure modes of the checkout transaction.  `productMissing` models a
cart line whose foreign key resolves to no product row — unreachable in
the database but kept so the embedding is total.  `integrityError` is the
`unique=True` rejection of a duplicate order number at insert. -/
inductive CheckoutError where
  | emptyCart
  | stockErrors (msgs : List String)
  | productMissing
  | integrityError
deriving Repr, DecidableEq

/-- The `Order.objects.create(...)` record of `serializers.py` lines
219-230, before `Order.save` runs: blank order number, computed subtotal,
hard-coded zero discount, summed item count. -/
def checkoutOrder0 (s : State) (d : Date) : OrderRec :=
  { order_number := ""
    created_date := d
    subtotal := cartSubtotal s.products (sortCart s.cart)
    discount_total := 0
    total_price := 0
    total_items := ((sortCart s.cart).map (fun it => it.quantity)).sum
    items := [] }

/-- The order row as committed by the checkout transaction:
`Order.objects.create` runs `Order.save` once (allocating the order number
and computing `total_price`), the `OrderItem` snapshots are attached, and
`order.save(update_fields=['total_price'])` runs `Order.save` again. -/
def checkoutOrder (s : State) (d : Date) : OrderRec :=
  let order1 := order_save s.orders d (checkoutOrder0 s d)
  order_save s.orders d
    { order1 with items := (sortCart s.cart).map (mkOrderItem s.products) }

/-- `OrderCreateSerializer.create` (`serializers.py` lines 168-258), the
body of `transaction.atomic()`:
lock and sort the cart lines, fail on an empty cart, re-validate every
line under lock (collecting all offending lines), compute `subtotal` and
`total_items`, create the `Order` (whose `save` allocates the order number
and recomputes `total_price`; the `unique=True` constraint rejects a
duplicate number), snapshot one `OrderItem` per line, decrement each
product's stock, save `total_price` again, and clear the cart.  Any error
is a raised exception: the transaction commits nothing. -/
def checkoutCreate (s : State) (today : Date) : Except CheckoutError State :=
  let items := sortCart s.cart
  if items.isEmpty then .error .emptyCart
  else if items.any (fun it => (findProduct s.products it.product).isNone) then
    .error .productMissing
  else
    let errs := stockErrorsOf s.products items
    if errs.isEmpty then
      if s.orders.any (fun x =>
          x.order_number == (order_save s.orders today (checkoutOrder0 s today)).order_number) then
        .error .integrityError
      else
        .ok { products := decrementStocks s.products items
              cart := []
              orders := s.orders ++ [checkoutOrder s today] }
    else .error (.stockErrors errs)

/-- The checkout request seen from outside the transaction: on success the
new committed state, on a raised error the rollback of
`transaction.atomic()` leaves the committed state exactly as it was. -/
def checkoutRequest (s : State) (today : Date) : State × Option CheckoutError :=
  match checkoutCreate s today with
  | .ok s1 => (s1, none)
  | .error e => (s, some e)

/-- The quantity of the cart line holding product `pid`, if that line
exists (`cart.items.get_or_create` lookup key). -/
def lineQty (cart : List CartItem) (pid : Nat) : Option Nat :=
  (cart.find? (fun ci => ci.product == pid)).map (fun ci => ci.quantity)

/-- Total quantity of product `pid` over a list of cart lines; the unique
constraint on `(cart, product)` makes at most one line contribute. -/
def cartQtyTotal (items : List CartItem) (pid : Nat) : Nat :=
  ((items.filter (fun it => it.product == pid)).map (fun it => it.quantity)).sum

/-- Failure modes of `CartViewSet.add_item` (`views.py` lines 64-138):
serializer bounds on the quantity, product lookup restricted to
`is_active=True`, and the advisory stock check. -/
inductive AddError where
  | invalidQuantity
  | productNotFound
  | insufficientStock
deriving Repr, DecidableEq

/-- `CartViewSet.add_item` (`views.py` lines 64-128) acting on the cart
lines: `AddToCartSerializer` enforces `1 ≤ quantity ≤ 999`; the view
resolves the product with `is_active=True`, rejects `quantity > stock`,
then `get_or_create`s the line — an existing line's quantity is *set* to
the request quantity (`views.py` line 95), a fresh line is created with it.
`fresh_id` stands for the primary key the database would assign. -/
def add_item (ps : List Product) (cart : List CartItem) (pid : Nat)
    (q : Nat) (fresh_id : Nat) : Except AddError (List CartItem) :=
  if q < 1 || 999 < q then .error .invalidQuantity
  else
    match findProduct ps pid with
    | none => .error .productNotFound
    | some p =>
      if !p.is_active then .error .productNotFound
      else if (q : Int) > p.stock then .error .insufficientStock
      else
        match cart.find? (fun ci => ci.product == pid) with
        | some _ => .ok (cart.map (fun ci =>
            if ci.product == pid then { ci with quantity := q } else ci))
        | none => .ok (cart ++ [{ item_id := fresh_id, product := pid, quantity := q }])

/-- `CartViewSet.update_item` (`views.py` lines 140-228) acting on the cart
lines: an unknown `item_id` is a 404 leaving the cart unchanged; a
quantity `≤ 0` deletes the line; otherwise `CartItemUpdateSerializer`
rejects `quantity > 999` or `quantity > stock` (cart unchanged), and an
accepted quantity overwrites the line. -/
def update_item (ps : List Product) (cart : List CartItem) (item_id : Nat)
    (q : Int) : List CartItem :=
  match cart.find? (fun ci => ci.item_id == item_id) with
  | none => cart
  | some ci =>
    if q ≤ 0 then cart.filter (fun x => x.item_id != item_id)
    else if 999 < q then cart
    else if stockOf ps ci.product < q then cart
    else cart.map (fun x =>
      if x.item_id == item_id then { x with quantity := q.toNat } else x)

/-- `CartViewSet.remove_item` (`views.py` lines 230-271) acting on the cart
lines: an unknown `item_id` is a 404 leaving the cart unchanged; otherwise
the line is deleted. -/
def remove_item (cart : List CartItem) (item_id : Nat) : List CartItem :=
  match cart.find? (fun ci => ci.item_id == item_id) with
  | none => cart
  | some _ => cart.filter (fun x => x.item_id != item_id)

/-- One iteration of the merge loop in `get_or_create_cart`
(`utils.py` lines 43-58): `get_or_create` the line for the anonymous
item's product — if it is new it is created with the anonymous quantity;
if it already exists, the summed quantity is kept when it fits in stock
and is otherwise capped to the stock value. -/
def mergeStep (ps : List Product) (acc : List CartItem) (item : CartItem) :
    List CartItem :=
  match acc.find? (fun ci => ci.product == item.product) with
  | none => acc ++ [item]
  | some ci =>
    let new_quantity := ci.quantity + item.quantity
    if (new_quantity : Int) ≤ stockOf ps item.product then
      acc.map (fun x =>
        if x.product == item.product then { x with quantity := new_quantity } else x)
    else
      acc.map (fun x =>
        if x.product == item.product then { x with quantity := (stockOf ps item.product).toNat }
        else x)

/-- The merge loop of `get_or_create_cart` (`utils.py` lines 43-58) over
all anonymous lines. -/
def mergeCarts (ps : List Product) (auth anon : List CartItem) : List CartItem :=
  anon.foldl (mergeStep ps) auth

/-- The two carts `get_or_create_cart` reconciles at login: the
authenticated user's lines and the anonymous session cart —
`none` when that cart row does not exist (`Cart.DoesNotExist`). -/
structure CartsState where
  authItems : List CartItem
  anonCart : Option (List CartItem)
deriving Repr, DecidableEq

/-- The merge branch of `get_or_create_cart` (`utils.py` lines 35-64): if
the anonymous cart row exists its lines are merged into the authenticated
cart and the anonymous cart is deleted; if it does not exist
(`Cart.DoesNotExist`) nothing happens. -/
def runMerge (ps : List Product) (st : CartsState) : CartsState :=
  match st.anonCart with
  | none => st
  | some anon => { authItems := mergeCarts ps st.authItems anon, anonCart := none }

/-! ## Helper lemmas -/

theorem lineQty_nil (pid : Nat) : lineQty [] pid = none := rfl

theorem lineQty_cons (a : CartItem) (l : List CartItem) (pid : Nat) :
    lineQty (a :: l) pid =
      if a.product == pid then some a.quantity else lineQty l pid := by
  simp only [lineQty, List.find?]
  cases h : (a.product == pid) <;> simp [h]

theorem lineQty_append (l1 l2 : List CartItem) (pid : Nat) :
    lineQty (l1 ++ l2) pid =
      match lineQty l1 pid with
      | some q => some q
      | none => lineQty l2 pid := by
  induction l1 with
  | nil => simp [lineQty_nil]
  | cons a t ih =>
    rw [List.cons_append, lineQty_cons, lineQty_cons]
    cases h : (a.product == pid) <;> simp [ih]

theorem find?_map_pp (f : CartItem → CartItem)
    (hf : ∀ x, (f x).product = x.product) (l : List CartItem) (pid : Nat) :
    (l.map f).find? (fun x => x.product == pid)
      = (l.find? (fun x => x.product == pid)).map f := by
  induction l with
  | nil => rfl
  | cons a t ih =>
    simp only [List.map_cons, List.find?_cons]
    rw [hf a]
    cases h : (a.product == pid) <;> simp [h, ih]

theorem lineQty_map_same (l : List CartItem) (pid : Nat) (n : Nat) :
    lineQty (l.map (fun x => if x.product == pid then { x with quantity := n } else x)) pid
      = (lineQty l pid).map (fun _ => n) := by
  have hf : ∀ x : CartItem,
      ((if x.product == pid then { x with quantity := n } else x) : CartItem).product
        = x.product := by
    intro x
    cases h : (x.product == pid) <;> simp [h]
  unfold lineQty
  rw [find?_map_pp _ hf]
  cases hfind : l.find? (fun x => x.product == pid) with
  | none => rfl
  | some x =>
    have hx : (x.product == pid) = true :=
      List.find?_some (p := fun y : CartItem => y.product == pid) hfind
    have hxe : x.product = pid := by simpa using hx
    simp [hxe]

theorem lineQty_map_other (l : List CartItem) (pid pid2 : Nat) (n : Nat)
    (hne : pid2 ≠ pid) :
    lineQty (l.map (fun x => if x.product == pid2 then { x with quantity := n } else x)) pid
      = lineQty l pid := by
  have hf : ∀ x : CartItem,
      ((if x.product == pid2 then { x with quantity := n } else x) : CartItem).product
        = x.product := by
    intro x
    cases h : (x.product == pid2) <;> simp [h]
  unfold lineQty
  rw [find?_map_pp _ hf]
  cases hfind : l.find? (fun x => x.product == pid) with
  | none => rfl
  | some x =>
    have hx : (x.product == pid) = true :=
      List.find?_some (p := fun y : CartItem => y.product == pid) hfind
    have hxe : x.product = pid := by simpa using hx
    have h2 : x.product ≠ pid2 := by
      rw [hxe]
      exact fun hc => hne hc.symm
    simp [h2]

theorem lineQty_eq_none_iff (l : List CartItem) (pid : Nat) :
    lineQty l pid = none ↔ ∀ x ∈ l, x.product ≠ pid := by
  simp [lineQty, List.find?_eq_none]

theorem mergeStep_new (ps : List Product) (acc : List CartItem) (a : CartItem)
    (pid : Nat) (hp : a.product = pid) (hnone : lineQty acc pid = none) :
    lineQty (mergeStep ps acc a) pid = some a.quantity := by
  have hfind : acc.find? (fun ci => ci.product == a.product) = none := by
    have := (lineQty_eq_none_iff acc pid).mp hnone
    apply List.find?_eq_none.mpr
    intro x hx
    simp [hp, this x hx]
  simp only [mergeStep, hfind]
  rw [lineQty_append, hnone, lineQty_cons]
  simp [hp]

theorem mergeStep_existing (ps : List Product) (acc : List CartItem) (a : CartItem)
    (pid : Nat) (e : Nat) (hp : a.product = pid) (hsome : lineQty acc pid = some e) :
    lineQty (mergeStep ps acc a) pid =
      some (if ((e + a.quantity : Nat) : Int) ≤ stockOf ps pid then e + a.quantity
            else (stockOf ps pid).toNat) := by
  subst hp
  obtain ⟨ci, hci, hq⟩ :
      ∃ ci, acc.find? (fun x => x.product == a.product) = some ci ∧ ci.quantity = e := by
    unfold lineQty at hsome
    cases hfind : acc.find? (fun x => x.product == a.product) with
    | none => rw [hfind] at hsome; simp at hsome
    | some ci => rw [hfind] at hsome; exact ⟨ci, rfl, by simpa using hsome⟩
  subst hq
  unfold mergeStep
  rw [hci]
  dsimp only
  by_cases hle : ((ci.quantity + a.quantity : Nat) : Int) ≤ stockOf ps a.product
  · rw [if_pos hle, if_pos hle, lineQty_map_same, hsome]
    rfl
  · rw [if_neg hle, if_neg hle, lineQty_map_same, hsome]
    rfl

theorem mergeStep_other (ps : List Product) (acc : List CartItem) (a : CartItem)
    (pid : Nat) (hp : a.product ≠ pid) :
    lineQty (mergeStep ps acc a) pid = lineQty acc pid := by
  unfold mergeStep
  cases hfind : acc.find? (fun ci => ci.product == a.product) with
  | none =>
    rw [lineQty_append]
    cases hq : lineQty acc pid with
    | none => rw [lineQty_cons]; simp [hp, lineQty_nil]
    | some q => rfl
  | some ci =>
    dsimp only
    by_cases hle : ((ci.quantity + a.quantity : Nat) : Int) ≤ stockOf ps a.product
    · rw [if_pos hle]
      exact lineQty_map_other _ _ _ _ hp
    · rw [if_neg hle]
      exact lineQty_map_other _ _ _ _ hp

theorem mergeCarts_no_pid (ps : List Product) (anon : List CartItem) (pid : Nat)
    (h : ∀ x ∈ anon, x.product ≠ pid) :
    ∀ auth, lineQty (mergeCarts ps auth anon) pid = lineQty auth pid := by
  induction anon with
  | nil => intro auth; rfl
  | cons a rest ih =>
    intro auth
    have ha : a.product ≠ pid := h a (by simp)
    have hrest : ∀ x ∈ rest, x.product ≠ pid := fun x hx => h x (by simp [hx])
    show lineQty (mergeCarts ps (mergeStep ps auth a) rest) pid = lineQty auth pid
    rw [ih hrest, mergeStep_other _ _ _ _ ha]

theorem mergeCarts_lineQty_new (ps : List Product) (anon : List CartItem)
    (pid : Nat) (i : Nat) :
    ∀ auth, (anon.map (fun x => x.product)).Nodup →
      lineQty anon pid = some i → lineQty auth pid = none →
      lineQty (mergeCarts ps auth anon) pid = some i := by
  induction anon with
  | nil => intro auth _ hi _; simp [lineQty_nil] at hi
  | cons a rest ih =>
    intro auth hnd hi hnone
    rw [List.map_cons, List.nodup_cons] at hnd
    have hnd1 : a.product ∉ rest.map (fun x => x.product) := hnd.1
    have hnd2 : (rest.map (fun x => x.product)).Nodup := hnd.2
    rw [lineQty_cons] at hi
    show lineQty (mergeCarts ps (mergeStep ps auth a) rest) pid = some i
    cases hb : (a.product == pid) with
    | true =>
      rw [hb, if_pos rfl] at hi
      have hpe : a.product = pid := by simpa using hb
      have hrest : ∀ x ∈ rest, x.product ≠ pid := by
        intro x hx hc
        apply hnd1
        rw [hpe, ← hc]
        exact List.mem_map_of_mem _ hx
      rw [mergeCarts_no_pid ps rest pid hrest, mergeStep_new ps auth a pid hpe hnone]
      exact congrArg some (by injection hi)
    | false =>
      rw [hb, if_neg (by simp)] at hi
      have hpe : a.product ≠ pid := by simpa using hb
      exact ih (mergeStep ps auth a) hnd2 hi
        (by rw [mergeStep_other ps auth a pid hpe]; exact hnone)

theorem mergeCarts_lineQty_existing (ps : List Product) (anon : List CartItem)
    (pid : Nat) (i : Nat) :
    ∀ auth e, (anon.map (fun x => x.product)).Nodup →
      lineQty anon pid = some i → lineQty auth pid = some e →
      lineQty (mergeCarts ps auth anon) pid =
        some (if ((e + i : Nat) : Int) ≤ stockOf ps pid then e + i
              else (stockOf ps pid).toNat) := by
  induction anon with
  | nil => intro auth e _ hi _; simp [lineQty_nil] at hi
  | cons a rest ih =>
    intro auth e hnd hi hsome
    rw [List.map_cons, List.nodup_cons] at hnd
    have hnd1 : a.product ∉ rest.map (fun x => x.product) := hnd.1
    have hnd2 : (rest.map (fun x => x.product)).Nodup := hnd.2
    rw [lineQty_cons] at hi
    show lineQty (mergeCarts ps (mergeStep ps auth a) rest) pid = _
    cases hb : (a.product == pid) with
    | true =>
      rw [hb, if_pos rfl] at hi
      have hpe : a.product = pid := by simpa using hb
      have hrest : ∀ x ∈ rest, x.product ≠ pid := by
        intro x hx hc
        apply hnd1
        rw [hpe, ← hc]
        exact List.mem_map_of_mem _ hx
      rw [mergeCarts_no_pid ps rest pid hrest,
        mergeStep_existing ps auth a pid e hpe hsome]
      have : a.quantity = i := by injection hi
      rw [this]
    | false =>
      rw [hb, if_neg (by simp)] at hi
      have hpe : a.product ≠ pid := by simpa using hb
      exact ih (mergeStep ps auth a) e hnd2 hi
        (by rw [mergeStep_other ps auth a pid hpe]; exact hsome)

theorem mergeCarts_disjoint (ps : List Product) (anon : List CartItem) :
    ∀ auth, (anon.map (fun x => x.product)).Nodup →
      (∀ x ∈ anon, ∀ b ∈ auth, b.product ≠ x.product) →
      mergeCarts ps auth anon = auth ++ anon := by
  induction anon with
  | nil => intro auth _ _; simp [mergeCarts]
  | cons a rest ih =>
    intro auth hnd hdisj
    rw [List.map_cons, List.nodup_cons] at hnd
    have hnd1 : a.product ∉ rest.map (fun x => x.product) := hnd.1
    have hnd2 : (rest.map (fun x => x.product)).Nodup := hnd.2
    have hfind : auth.find? (fun ci => ci.product == a.product) = none := by
      apply List.find?_eq_none.mpr
      intro b hb
      simpa using hdisj a (by simp) b hb
    have hstep : mergeStep ps auth a = auth ++ [a] := by
      unfold mergeStep
      rw [hfind]
    show mergeCarts ps (mergeStep ps auth a) rest = auth ++ a :: rest
    rw [hstep, ih (auth ++ [a]) hnd2 ?hdisj2, List.append_assoc, List.singleton_append]
    case hdisj2 =>
      intro x hx b hb hc
      rcases List.mem_append.mp hb with hba | hba
      · exact hdisj x (by simp [hx]) b hba hc
      · have : b = a := by simpa using hba
        subst this
        exact hnd1 (by rw [hc]; exact List.mem_map_of_mem _ hx)

theorem sortCart_perm (l : List CartItem) : (sortCart l).Perm l :=
  List.perm_insertionSort _ l

theorem sortCart_mem (l : List CartItem) (x : CartItem) :
    x ∈ sortCart l ↔ x ∈ l :=
  (sortCart_perm l).mem_iff

theorem sortCart_isEmpty_false (l : List CartItem) (h : l ≠ []) :
    (sortCart l).isEmpty = false := by
  cases hs : sortCart l with
  | nil =>
    have hp := sortCart_perm l
    rw [hs] at hp
    exact absurd hp.symm.eq_nil h
  | cons a t => rfl

theorem cartQtyTotal_nil (pid : Nat) : cartQtyTotal [] pid = 0 := rfl

theorem cartQtyTotal_cons (it : CartItem) (items : List CartItem) (pid : Nat) :
    cartQtyTotal (it :: items) pid =
      (if it.product == pid then it.quantity else 0) + cartQtyTotal items pid := by
  unfold cartQtyTotal
  rw [List.filter_cons]
  cases h : (it.product == pid) <;> simp [h]

theorem cartQtyTotal_sortCart (l : List CartItem) (pid : Nat) :
    cartQtyTotal (sortCart l) pid = cartQtyTotal l pid := by
  unfold cartQtyTotal
  exact ((sortCart_perm l).filter _).map (fun it => it.quantity) |>.sum_eq

theorem cartQtyTotal_eq_zero (items : List CartItem) (pid : Nat)
    (h : ∀ x ∈ items, x.product ≠ pid) : cartQtyTotal items pid = 0 := by
  induction items with
  | nil => rfl
  | cons a t ih =>
    rw [cartQtyTotal_cons]
    have ha : (a.product == pid) = false := by simpa using h a (by simp)
    rw [ha, ih (fun x hx => h x (by simp [hx]))]
    simp

theorem cartQtyTotal_nodup_mem (items : List CartItem) (it : CartItem)
    (hnd : (items.map (fun x => x.product)).Nodup) (hmem : it ∈ items) :
    cartQtyTotal items it.product = it.quantity := by
  induction items with
  | nil => cases hmem
  | cons a t ih =>
    rw [List.map_cons, List.nodup_cons] at hnd
    rw [cartQtyTotal_cons]
    rcases List.mem_cons.mp hmem with heq | hmem2
    · subst heq
      rw [if_pos (by simp)]
      rw [cartQtyTotal_eq_zero t it.product
        (fun x hx hc => hnd.1 (hc ▸ List.mem_map_of_mem _ hx))]
      exact Nat.add_zero _
    · have hne : (a.product == it.product) = false := by
        simp only [beq_eq_false_iff_ne, ne_eq]
        intro hc
        exact hnd.1 (hc ▸ List.mem_map_of_mem _ hmem2)
      rw [hne, if_neg (by simp), ih hnd.2 hmem2, Nat.zero_add]

theorem decrementStocks_eq (items : List CartItem) :
    ∀ ps : List Product,
      decrementStocks ps items
        = ps.map (fun p => { p with stock := p.stock - (cartQtyTotal items p.pid : Int) }) := by
  induction items with
  | nil =>
    intro ps
    show ps = _
    simp only [cartQtyTotal_nil, Nat.cast_zero, sub_zero]
    exact (List.map_id ps).symm
  | cons it rest ih =>
    intro ps
    show decrementStocks
      (ps.map (fun p =>
        if p.pid == it.product then { p with stock := p.stock - (it.quantity : Int) } else p))
      rest = _
    rw [ih, List.map_map]
    apply List.map_congr_left
    intro p _
    simp only [Function.comp]
    by_cases hp : p.pid = it.product
    · rw [if_pos (by simp [hp]), cartQtyTotal_cons]
      have : (it.product == p.pid) = true := by simp [hp]
      rw [this, if_pos rfl]
      show ({ p with stock := p.stock - (it.quantity : Int) - (cartQtyTotal rest p.pid : Int) } : Product) = _
      have harith : p.stock - (it.quantity : Int) - (cartQtyTotal rest p.pid : Int)
          = p.stock - ((it.quantity + cartQtyTotal rest p.pid : Nat) : Int) := by
        push_cast
        ring
      rw [harith]
    · rw [if_neg (by simp [hp]), cartQtyTotal_cons]
      have : (it.product == p.pid) = false := by
        simp only [beq_eq_false_iff_ne, ne_eq]
        exact fun hc => hp hc.symm
      rw [this, if_neg (by simp), Nat.zero_add]

theorem findProduct_nodup (ps : List Product) (p : Product)
    (hnd : (ps.map (fun x => x.pid)).Nodup) (hmem : p ∈ ps) :
    findProduct ps p.pid = some p := by
  induction ps with
  | nil => cases hmem
  | cons a t ih =>
    rw [List.map_cons, List.nodup_cons] at hnd
    rcases List.mem_cons.mp hmem with heq | hmem2
    · subst heq
      unfold findProduct
      rw [List.find?_cons]
      simp
    · unfold findProduct
      rw [List.find?_cons]
      have hne : (a.pid == p.pid) = false := by
        simp only [beq_eq_false_iff_ne, ne_eq]
        intro hc
        exact hnd.1 (hc ▸ List.mem_map_of_mem _ hmem2)
      rw [hne]
      exact ih hnd.2 hmem2

theorem stockErrorsOf_nil_elim (ps : List Product) (items : List CartItem)
    (h : stockErrorsOf ps items = []) :
    ∀ it ∈ items, ∀ p, findProduct ps it.product = some p →
      p.is_active = true ∧ (it.quantity : Int) ≤ p.stock := by
  intro it hit p hp
  have hall := List.filterMap_eq_nil_iff.mp h it hit
  rw [hp] at hall
  dsimp only at hall
  cases hact : p.is_active with
  | false => simp [hact] at hall
  | true =>
    simp only [hact, Bool.not_true, Bool.false_eq_true, if_false] at hall
    refine ⟨rfl, ?_⟩
    by_cases hq : (it.quantity : Int) > p.stock
    · rw [if_pos hq] at hall
      simp at hall
    · exact le_of_not_lt hq

theorem checkoutCreate_eq (s : State) (d : Date) :
    checkoutCreate s d =
      (if (sortCart s.cart).isEmpty then Except.error CheckoutError.emptyCart
       else if (sortCart s.cart).any
            (fun it => (findProduct s.products it.product).isNone) then
         Except.error CheckoutError.productMissing
       else if (stockErrorsOf s.products (sortCart s.cart)).isEmpty then
         if s.orders.any (fun x => x.order_number
             == (order_save s.orders d (checkoutOrder0 s d)).order_number) then
           Except.error CheckoutError.integrityError
         else Except.ok { products := decrementStocks s.products (sortCart s.cart)
                          cart := []
                          orders := s.orders ++ [checkoutOrder s d] }
       else Except.error (CheckoutError.stockErrors
         (stockErrorsOf s.products (sortCart s.cart)))) := rfl

theorem checkoutCreate_ok_elim (s : State) (d : Date) (s1 : State)
    (h : checkoutCreate s d = .ok s1) :
    s.cart ≠ []
    ∧ (∀ it ∈ s.cart, (findProduct s.products it.product).isSome)
    ∧ stockErrorsOf s.products (sortCart s.cart) = []
    ∧ s1 = { products := decrementStocks s.products (sortCart s.cart)
             cart := []
             orders := s.orders ++ [checkoutOrder s d] } := by
  rw [checkoutCreate_eq] at h
  by_cases h1 : (sortCart s.cart).isEmpty = true
  · rw [if_pos h1] at h
    exact absurd h (by simp)
  · rw [if_neg h1] at h
    by_cases h2 : ((sortCart s.cart).any
        (fun it => (findProduct s.products it.product).isNone)) = true
    · rw [if_pos h2] at h
      exact absurd h (by simp)
    · rw [if_neg h2] at h
      by_cases h3 : ((stockErrorsOf s.products (sortCart s.cart)).isEmpty) = true
      · rw [if_pos h3] at h
        by_cases h4 : (s.orders.any (fun x => x.order_number
            == (order_save s.orders d (checkoutOrder0 s d)).order_number)) = true
        · rw [if_pos h4] at h
          exact absurd h (by simp)
        · rw [if_neg h4] at h
          have hs1 : s1 = { products := decrementStocks s.products (sortCart s.cart)
                            cart := []
                            orders := s.orders ++ [checkoutOrder s d] } := by
            injection h with h5
            exact h5.symm
          refine ⟨?_, ?_, ?_, hs1⟩
          · intro hcart
            rw [hcart] at h1
            exact h1 rfl
          · intro it hit
            have h2b : ((sortCart s.cart).any
                (fun it => (findProduct s.products it.product).isNone)) = false := by
              cases hb : ((sortCart s.cart).any
                  (fun it => (findProduct s.products it.product).isNone)) with
              | true => exact absurd hb h2
              | false => rfl
            have hx := List.any_eq_false.mp h2b it ((sortCart_mem s.cart it).mpr hit)
            cases hopt : findProduct s.products it.product with
            | none => rw [hopt] at hx; simp at hx
            | some p => rfl
          · cases hb : stockErrorsOf s.products (sortCart s.cart) with
            | nil => rfl
            | cons a t =>
              rw [hb] at h3
              simp at h3
      · rw [if_neg h3] at h
        exact absurd h (by simp)

theorem generate_order_number_ne_blank (orders : List OrderRec) (d : Date) :
    generate_order_number orders d ≠ "" := by
  intro hc
  have hl := congrArg String.length hc
  rw [generate_order_number, String.length_append, String.length_append,
    String.length_append] at hl
  have h3 : ("OG-" : String).length = 3 := rfl
  have h0 : ("" : String).length = 0 := rfl
  rw [h3, h0] at hl
  omega

theorem checkoutOrder_spec (s : State) (d : Date) :
    checkoutOrder s d =
      { order_number := generate_order_number s.orders d
        created_date := d
        subtotal := cartSubtotal s.products (sortCart s.cart)
        discount_total := 0
        total_price := cartSubtotal s.products (sortCart s.cart) - 0
        total_items := ((sortCart s.cart).map (fun it => it.quantity)).sum
        items := (sortCart s.cart).map (mkOrderItem s.products) } := by
  unfold checkoutOrder
  rw [show order_save s.orders d (checkoutOrder0 s d) =
      { order_number := generate_order_number s.orders d
        created_date := d
        subtotal := cartSubtotal s.products (sortCart s.cart)
        discount_total := 0
        total_price := cartSubtotal s.products (sortCart s.cart) - 0
        total_items := ((sortCart s.cart).map (fun it => it.quantity)).sum
        items := [] } from by
    unfold order_save checkoutOrder0
    rw [if_pos rfl]]
  unfold order_save
  dsimp only
  rw [if_neg (generate_order_number_ne_blank s.orders d)]

theorem checkoutRequest_error_state (s : State) (d : Date) (st : State)
    (e : CheckoutError) (h : checkoutRequest s d = (st, some e)) : st = s := by
  unfold checkoutRequest at h
  cases hc : checkoutCreate s d with
  | ok s1 => rw [hc] at h; simp at h
  | error e2 =>
    rw [hc] at h
    injection h with h1 h2
    exact h1.symm

theorem checkoutCreate_empty (s : State) (d : Date) (h : s.cart = []) :
    checkoutCreate s d = .error .emptyCart := by
  obtain ⟨ps, cart, ords⟩ := s
  simp only at h
  subst h
  rfl

theorem checkoutCreate_stock_error (s : State) (d : Date)
    (hcart : s.cart ≠ [])
    (hpresent : ∀ it ∈ s.cart, (findProduct s.products it.product).isSome)
    (herr : stockErrorsOf s.products (sortCart s.cart) ≠ []) :
    checkoutCreate s d
      = .error (.stockErrors (stockErrorsOf s.products (sortCart s.cart))) := by
  rw [checkoutCreate_eq]
  rw [sortCart_isEmpty_false s.cart hcart, if_neg (by simp)]
  have h2 : ((sortCart s.cart).any
      (fun it => (findProduct s.products it.product).isNone)) = false := by
    apply List.any_eq_false.mpr
    intro it hit
    have := hpresent it ((sortCart_mem s.cart it).mp hit)
    cases hopt : findProduct s.products it.product with
    | none => rw [hopt] at this; simp at this
    | some p => simp [hopt]
  rw [h2, if_neg (by simp)]
  have h3 : ((stockErrorsOf s.products (sortCart s.cart)).isEmpty) = false := by
    cases hb : stockErrorsOf s.products (sortCart s.cart) with
    | nil => exact absurd hb herr
    | cons a t => rfl
  rw [h3, if_neg (by simp)]

/-! ## Claim theorems -/

/-- C9: updating a cart line with a quantity `≤ 0` deletes the line, and
the resulting cart state is identical to the state produced by removing
the same line — in particular the line is absent either way. -/
theorem c9_update_zero_equals_remove (ps : List Product) (cart : List CartItem)
    (item_id : Nat) (q : Int) (hq : q ≤ 0) :
    update_item ps cart item_id q = remove_item cart item_id := by
  unfold update_item remove_item
  cases hfind : cart.find? (fun ci => ci.item_id == item_id) with
  | none => rfl
  | some ci =>
    dsimp only
    rw [if_pos hq]

/-- Witness for C9 at a concrete cart. -/
theorem c9_update_zero_equals_remove_witness :
    update_item [] [{ item_id := 5, product := 1, quantity := 2 }] 5 0
      = remove_item [{ item_id := 5, product := 1, quantity := 2 }] 5 :=
  c9_update_zero_equals_remove [] [{ item_id := 5, product := 1, quantity := 2 }] 5 0
    (by decide)

/-- C8: `add_item` with a valid quantity on an active, sufficiently
stocked product succeeds; the resulting cart holds that product with
quantity exactly `q` — an existing line is overwritten, a missing line is
created — and every other product's line is untouched. -/
theorem c8_add_item_sets_quantity (ps : List Product) (cart : List CartItem)
    (pid q fid : Nat) (p : Product)
    (hfp : findProduct ps pid = some p) (hact : p.is_active = true)
    (hq1 : 1 ≤ q) (hq2 : q ≤ 999) (hstock : (q : Int) ≤ p.stock) :
    ∃ cart2, add_item ps cart pid q fid = .ok cart2
      ∧ lineQty cart2 pid = some q
      ∧ ∀ pid2, pid2 ≠ pid → lineQty cart2 pid2 = lineQty cart pid2 := by
  unfold add_item
  rw [if_neg (by simp; omega), hfp]
  dsimp only
  rw [hact]
  rw [if_neg (by simp), if_neg (not_lt.mpr hstock)]
  cases hfind : cart.find? (fun ci => ci.product == pid) with
  | some ci =>
    refine ⟨_, rfl, ?_, ?_⟩
    · rw [lineQty_map_same]
      unfold lineQty
      rw [hfind]
      rfl
    · intro pid2 hne
      exact lineQty_map_other cart pid2 pid q fun hc => hne hc.symm
  | none =>
    refine ⟨_, rfl, ?_, ?_⟩
    · rw [lineQty_append]
      have : lineQty cart pid = none := by unfold lineQty; rw [hfind]; rfl
      rw [this, lineQty_cons]
      simp
    · intro pid2 hne
      rw [lineQty_append]
      cases hc : lineQty cart pid2 with
      | some w => rfl
      | none =>
        rw [lineQty_cons]
        have : (({ item_id := fid, product := pid, quantity := q } : CartItem).product
            == pid2) = false := by
          simp only [beq_eq_false_iff_ne, ne_eq]
          exact fun hcc => hne (by simpa using hcc.symm)
        rw [this]
        simp [lineQty_nil]

/-- Witness for C8 at a concrete cart: the existing line of quantity 2 is
overwritten to 7, not incremented. -/
theorem c8_add_item_sets_quantity_witness :
    ∃ cart2,
      add_item
        [{ pid := 1, name_uz := "olma", price := 100, sale_price := none,
           stock := 50, is_active := true }]
        [{ item_id := 4, product := 1, quantity := 2 }] 1 7 9 = .ok cart2
      ∧ lineQty cart2 1 = some 7
      ∧ ∀ pid2, pid2 ≠ 1 → lineQty cart2 pid2
          = lineQty [{ item_id := 4, product := 1, quantity := 2 }] pid2 :=
  c8_add_item_sets_quantity
    [{ pid := 1, name_uz := "olma", price := 100, sale_price := none,
       stock := 50, is_active := true }]
    [{ item_id := 4, product := 1, quantity := 2 }] 1 7 9
    { pid := 1, name_uz := "olma", price := 100, sale_price := none,
      stock := 50, is_active := true }
    (by decide) (by decide) (by decide) (by decide) (by decide)

/-- C7 counterexample: merging an anonymous cart holding 10 units of a
product with stock 5 into an empty authenticated cart yields a line with
quantity 10 — the anonymous quantity is *not* bounded above by the
available stock, contrary to the claim. -/
theorem c7_counterexample :
    mergeCarts
        [{ pid := 1, name_uz := "olma", price := 100, sale_price := none,
           stock := 5, is_active := true }]
        []
        [{ item_id := 9, product := 1, quantity := 10 }]
      = [{ item_id := 9, product := 1, quantity := 10 }]
    ∧ stockOf
        [{ pid := 1, name_uz := "olma", price := 100, sale_price := none,
           stock := 5, is_active := true }] 1 = 5
    ∧ ¬((10 : Int) ≤ 5) := by decide

/-- C7 (amended): merging an anonymous cart holding N distinct products
into an empty authenticated cart yields exactly those N lines with
quantities identical to the anonymous lines' quantities; no stock bound is
applied to lines whose product is absent from the authenticated cart. -/
theorem c7_merge_into_empty (ps : List Product) (anon : List CartItem)
    (hnd : (anon.map (fun x => x.product)).Nodup) :
    mergeCarts ps [] anon = anon := by
  have h := mergeCarts_disjoint ps anon [] hnd
    (fun x _ b hb => absurd hb (List.not_mem_nil b))
  simpa using h

/-- Witness for the amended C7 at a concrete two-line anonymous cart. -/
theorem c7_merge_into_empty_witness :
    mergeCarts ([] : List Product) ([] : List CartItem)
        [{ item_id := 1, product := 1, quantity := 3 },
         { item_id := 2, product := 2, quantity := 4 }]
      = [{ item_id := 1, product := 1, quantity := 3 },
         { item_id := 2, product := 2, quantity := 4 }] :=
  c7_merge_into_empty []
    [{ item_id := 1, product := 1, quantity := 3 },
     { item_id := 2, product := 2, quantity := 4 }]
    (by decide)

/-- C10: the claim that every stored cart line has quantity in `1..999` is
broken by the merge path of `get_or_create_cart`: merging a line for a
product held in both carts whose stock is 0 stores a line with quantity 0,
and merging 600 + 600 units against a stock of 2000 stores a line with
quantity 1200 — both outside the `1..999` range that
`MinValueValidator(1)` / `MaxValueValidator(999)` on `CartItem.quantity`
declare (those validators are not run by `save()`). -/
theorem c10_merge_stores_invalid_quantity :
    (mergeCarts
        [{ pid := 3, name_uz := "uzum", price := 100, sale_price := none,
           stock := 0, is_active := true }]
        [{ item_id := 1, product := 3, quantity := 1 }]
        [{ item_id := 2, product := 3, quantity := 1 }]).map (fun x => x.quantity)
      = [0]
    ∧ (mergeCarts
        [{ pid := 4, name_uz := "sabzi", price := 100, sale_price := none,
           stock := 2000, is_active := true }]
        [{ item_id := 1, product := 4, quantity := 600 }]
        [{ item_id := 2, product := 4, quantity := 600 }]).map (fun x => x.quantity)
      = [1200]
    ∧ ¬(1 ≤ 0 ∧ (0 : Nat) ≤ 999 ∧ 1200 ≤ 999) := by decide

/-- C6: the anonymous-cart merge of `get_or_create_cart`:
(1) a line whose product is absent from the authenticated cart is moved
over with its quantity;
(2) for a product present in both carts the resulting quantity is
`min(existing + incoming, available_stock)`, capped silently;
(3) the anonymous cart is deleted after the merge;
(4) merging an empty anonymous cart leaves the authenticated cart
unchanged, and (5) running the merge again after it already ran (the
anonymous cart row being gone) changes nothing. -/
theorem c6_cart_merge :
    (∀ (ps : List Product) (auth anon : List CartItem) (pid i : Nat),
        (anon.map (fun x => x.product)).Nodup →
        lineQty anon pid = some i → lineQty auth pid = none →
        lineQty (mergeCarts ps auth anon) pid = some i)
    ∧ (∀ (ps : List Product) (auth anon : List CartItem) (pid e i : Nat),
        (anon.map (fun x => x.product)).Nodup →
        lineQty anon pid = some i → lineQty auth pid = some e →
        0 ≤ stockOf ps pid →
        (lineQty (mergeCarts ps auth anon) pid).map (fun n => (n : Int))
          = some (min ((e : Int) + (i : Int)) (stockOf ps pid)))
    ∧ (∀ (ps : List Product) (st : CartsState) (anon : List CartItem),
        st.anonCart = some anon → (runMerge ps st).anonCart = none)
    ∧ (∀ (ps : List Product) (auth : List CartItem), mergeCarts ps auth [] = auth)
    ∧ (∀ (ps : List Product) (st : CartsState),
        runMerge ps (runMerge ps st) = runMerge ps st) := by
  refine ⟨?_, ?_, ?_, ?_, ?_⟩
  · intro ps auth anon pid i hnd hi hnone
    exact mergeCarts_lineQty_new ps anon pid i auth hnd hi hnone
  · intro ps auth anon pid e i hnd hi hsome hst
    rw [mergeCarts_lineQty_existing ps anon pid i auth e hnd hi hsome]
    by_cases hle : ((e + i : Nat) : Int) ≤ stockOf ps pid
    · rw [if_pos hle]
      have : min ((e : Int) + (i : Int)) (stockOf ps pid) = (e : Int) + (i : Int) := by
        push_cast at hle
        omega
      rw [this]
      simp
    · rw [if_neg hle]
      have hmin : min ((e : Int) + (i : Int)) (stockOf ps pid) = stockOf ps pid := by
        push_cast at hle
        omega
      rw [hmin]
      show some ((((stockOf ps pid).toNat : Nat)) : Int) = some (stockOf ps pid)
      rw [Int.toNat_of_nonneg hst]
  · intro ps st anon h
    obtain ⟨a, c⟩ := st
    cases c with
    | none => simp at h
    | some l => rfl
  · intro ps auth
    rfl
  · intro ps st
    obtain ⟨a, c⟩ := st
    cases c <;> rfl

/-- Witness for C6 at concrete carts: product 1 is in both carts
(2 + 4 against stock 5 caps to 5), product 2 only in the anonymous cart
(moved with quantity 7), and the anonymous cart row is gone afterwards. -/
theorem c6_cart_merge_witness :
    lineQty
        (mergeCarts
          [{ pid := 1, name_uz := "olma", price := 100, sale_price := none,
             stock := 5, is_active := true }]
          [{ item_id := 1, product := 1, quantity := 2 }]
          [{ item_id := 2, product := 1, quantity := 4 },
           { item_id := 3, product := 2, quantity := 7 }]) 2 = some 7
    ∧ (lineQty
        (mergeCarts
          [{ pid := 1, name_uz := "olma", price := 100, sale_price := none,
             stock := 5, is_active := true }]
          [{ item_id := 1, product := 1, quantity := 2 }]
          [{ item_id := 2, product := 1, quantity := 4 },
           { item_id := 3, product := 2, quantity := 7 }]) 1).map (fun n => (n : Int))
        = some (min ((2 : Int) + (4 : Int))
            (stockOf [{ pid := 1, name_uz := "olma", price := 100, sale_price := none,
                        stock := 5, is_active := true }] 1))
    ∧ (runMerge
        [{ pid := 1, name_uz := "olma", price := 100, sale_price := none,
           stock := 5, is_active := true }]
        { authItems := [{ item_id := 1, product := 1, quantity := 2 }]
          anonCart := some [{ item_id := 2, product := 1, quantity := 4 },
            { item_id := 3, product := 2, quantity := 7 }] }).anonCart = none :=
  ⟨c6_cart_merge.1 _ _ _ 2 7 (by decide) (by decide) (by decide),
   c6_cart_merge.2.1 _ _ _ 1 2 4 (by decide) (by decide) (by decide) (by decide),
   c6_cart_merge.2.2.1 _ _
     [{ item_id := 2, product := 1, quantity := 4 },
      { item_id := 3, product := 2, quantity := 7 }] rfl⟩

/-- C3 counterexample: the lock taken by `generate_order_number`
(`select_for_update()` on the day's counting query) covers only *existing*
order rows.  On a day with no orders yet there is nothing to lock
(`lockedRows [] d = []`), so two checkout transactions can both run the
count before either inserts; each computes the count 0 from the same
committed state and allocates the identical number `OG-20250101-00001`.
The `unique=True` constraint then rejects the second insert at commit —
so the two concurrent checkouts *do* receive the same number, contrary to
the claim. -/
theorem c3_counterexample :
    lockedRows [] { year := 2025, month := 1, day := 1 } = []
    ∧ generate_order_number [] { year := 2025, month := 1, day := 1 }
        = "OG-20250101-00001"
    ∧ commitOrder []
        { order_number := generate_order_number [] { year := 2025, month := 1, day := 1 }
          created_date := { year := 2025, month := 1, day := 1 }
          subtotal := 0, discount_total := 0, total_price := 0
          total_items := 0, items := [] }
        = .ok [{ order_number := "OG-20250101-00001"
                 created_date := { year := 2025, month := 1, day := 1 }
                 subtotal := 0, discount_total := 0, total_price := 0
                 total_items := 0, items := [] }]
    ∧ commitOrder
        [{ order_number := "OG-20250101-00001"
           created_date := { year := 2025, month := 1, day := 1 }
           subtotal := 0, discount_total := 0, total_price := 0
           total_items := 0, items := [] }]
        { order_number := generate_order_number [] { year := 2025, month := 1, day := 1 }
          created_date := { year := 2025, month := 1, day := 1 }
          subtotal := 1, discount_total := 0, total_price := 1
          total_items := 1, items := [] }
        = .error () := by decide

/-- C3 (amended): every allocated order number has the format
`OG-YYYYMMDD-NNNNN` with `NNNNN = (count of orders already created that
day) + 1` zero-padded to five digits; the sequence resets each day (a day
with no orders allocates `00001`); the numbers of *committed* orders stay
globally unique because the `unique=True` constraint rejects a duplicate
insert; and each commit on a day advances that day's sequence by one.
(The claim that two concurrent checkouts can never receive the same
number is dropped: see the counterexample.) -/
theorem c3_order_number_allocation :
    (∀ (orders : List OrderRec) (d : Date),
        generate_order_number orders d
          = "OG-" ++ fmtDate d ++ "-" ++ padNum 5 (dayCount orders d + 1))
    ∧ (∀ (orders : List OrderRec) (d : Date), dayCount orders d = 0 →
        generate_order_number orders d = "OG-" ++ fmtDate d ++ "-" ++ "00001")
    ∧ (∀ (orders : List OrderRec) (o : OrderRec) (orders2 : List OrderRec),
        (orders.map (fun x => x.order_number)).Nodup →
        commitOrder orders o = .ok orders2 →
        (orders2.map (fun x => x.order_number)).Nodup)
    ∧ (∀ (orders : List OrderRec) (d : Date) (o : OrderRec),
        o.created_date = d →
        dayCount (orders ++ [o]) d = dayCount orders d + 1) := by
  refine ⟨fun orders d => rfl, ?_, ?_, ?_⟩
  · intro orders d h
    rw [generate_order_number, h]
    exact congrArg (fun z => "OG-" ++ fmtDate d ++ "-" ++ z)
      (show padNum 5 (0 + 1) = "00001" from by decide)
  · intro orders o orders2 hnd hc
    unfold commitOrder at hc
    by_cases hdup : (orders.any fun x => x.order_number == o.order_number) = true
    · rw [if_pos hdup] at hc
      exact absurd hc (by simp)
    · rw [if_neg hdup] at hc
      injection hc with hc2
      subst hc2
      rw [List.map_append]
      rw [List.nodup_append]
      refine ⟨hnd, List.nodup_singleton _, ?_⟩
      intro n hn hn1
      have hfalse : (orders.any fun x => x.order_number == o.order_number) = false := by
        cases hb : (orders.any fun x => x.order_number == o.order_number) with
        | true => exact absurd hb hdup
        | false => rfl
      obtain ⟨x, hx, hxn⟩ := List.mem_map.mp hn
      have := List.any_eq_false.mp hfalse x hx
      have hno : n = o.order_number := by simpa using hn1
      exact this (by rw [hxn, hno]; simp)
  · intro orders d o h
    unfold dayCount
    rw [List.filter_append]
    have : List.filter (fun o => o.created_date == d) [o] = [o] := by
      simp [List.filter, h]
    rw [this, List.length_append]
    rfl

/-- Witness for the amended C3 at concrete values: a fresh day allocates
`-00001`, a successful commit keeps the committed numbers duplicate-free,
and a commit advances the day's count by one. -/
theorem c3_order_number_allocation_witness :
    generate_order_number [] { year := 2025, month := 1, day := 1 }
      = "OG-" ++ fmtDate { year := 2025, month := 1, day := 1 } ++ "-" ++ "00001"
    ∧ (([{ order_number := "OG-20250101-00001"
           created_date := { year := 2025, month := 1, day := 1 }
           subtotal := 0, discount_total := 0, total_price := 0
           total_items := 0, items := [] }] :
          List OrderRec).map (fun x => x.order_number)).Nodup
    ∧ dayCount
        ([] ++ [{ order_number := "OG-20250101-00001"
                  created_date := { year := 2025, month := 1, day := 1 }
                  subtotal := 0, discount_total := 0, total_price := 0
                  total_items := 0, items := [] }])
        { year := 2025, month := 1, day := 1 }
      = dayCount [] { year := 2025, month := 1, day := 1 } + 1 :=
  ⟨c3_order_number_allocation.2.1 [] { year := 2025, month := 1, day := 1 } (by decide),
   c3_order_number_allocation.2.2.1 []
     { order_number := "OG-20250101-00001"
       created_date := { year := 2025, month := 1, day := 1 }
       subtotal := 0, discount_total := 0, total_price := 0
       total_items := 0, items := [] }
     [{ order_number := "OG-20250101-00001"
        created_date := { year := 2025, month := 1, day := 1 }
        subtotal := 0, discount_total := 0, total_price := 0
        total_items := 0, items := [] }]
     (by decide) (by decide),
   c3_order_number_allocation.2.2.2 [] { year := 2025, month := 1, day := 1 }
     { order_number := "OG-20250101-00001"
       created_date := { year := 2025, month := 1, day := 1 }
       subtotal := 0, discount_total := 0, total_price := 0
       total_items := 0, items := [] }
     (by decide)⟩

/-- C2 counterexample: a product with list price 100 and sale price 150.
The sale price is present but *not* lower than the list price, so the
claim requires the recorded unit price to be the list price 100; the code
(`CartItem.get_unit_price`) uses the truthy sale price unconditionally and
the committed order line records 150. -/
theorem c2_counterexample :
    get_unit_price { pid := 2, name_uz := "nok", price := 100,
                     sale_price := some 150, stock := 5, is_active := true } = 150
    ∧ claimUnitPrice { pid := 2, name_uz := "nok", price := 100,
                       sale_price := some 150, stock := 5, is_active := true } = 100
    ∧ ((checkoutCreate
          { products := [{ pid := 2, name_uz := "nok", price := 100,
                           sale_price := some 150, stock := 5, is_active := true }],
            cart := [{ item_id := 1, product := 2, quantity := 1 }],
            orders := [] }
          { year := 2025, month := 1, day := 1 }).map
        (fun s1 => s1.orders.map (fun o => o.items.map (fun oi => oi.unit_price))))
      = .ok [[150]]
    ∧ (150 : Int) ≠ 100 := by decide

/-- C2 (amended): for every committed checkout, each order line's recorded
unit price is resolved at commit time from the product row as it stands in
the transaction — never from a price remembered at add-to-cart time (cart
lines store no price at all) — and equals the sale price whenever one is
present and non-zero (Python truthiness), otherwise the list price; the
strictly-lower comparison appears only in the `is_sale_price` flag. -/
theorem c2_unit_price_commit_time (s : State) (d : Date) (s1 : State)
    (h : checkoutCreate s d = .ok s1) :
    ∃ o, s1.orders = s.orders ++ [o]
      ∧ ∀ oi ∈ o.items, ∃ p, findProduct s.products oi.product = some p
          ∧ oi.unit_price = get_unit_price p
          ∧ oi.unit_price = (match p.sale_price with
              | some v => if v = 0 then p.price else v
              | none => p.price)
          ∧ oi.is_sale_price = is_sale_flag p := by
  obtain ⟨hne, hpres, herrs, hs1⟩ := checkoutCreate_ok_elim s d s1 h
  refine ⟨checkoutOrder s d, by rw [hs1], ?_⟩
  intro oi hoi
  rw [checkoutOrder_spec] at hoi
  dsimp only at hoi
  obtain ⟨it, hit, hoieq⟩ := List.mem_map.mp hoi
  have hmem : it ∈ s.cart := (sortCart_mem _ _).mp hit
  have hsome := hpres it hmem
  cases hopt : findProduct s.products it.product with
  | none => rw [hopt] at hsome; simp at hsome
  | some p =>
    subst hoieq
    refine ⟨p, ?_, ?_, ?_, ?_⟩
    · show findProduct s.products it.product = some p
      exact hopt
    · show unitPriceOf s.products it = get_unit_price p
      unfold unitPriceOf
      rw [hopt]
    · show unitPriceOf s.products it = _
      unfold unitPriceOf
      rw [hopt]
      cases hsp : p.sale_price with
      | none => simp [get_unit_price, hsp]
      | some v =>
        by_cases hv : v = 0
        · simp [get_unit_price, hsp, hv]
        · simp [get_unit_price, hsp, hv]
    · show (match findProduct s.products it.product with
          | some p => is_sale_flag p
          | none => false) = is_sale_flag p
      rw [hopt]

/-- Witness for the amended C2: a committed checkout of one line of a
product with sale price 80 below list price 100 records unit price 80. -/
theorem c2_unit_price_commit_time_witness :
    ∃ o, ({ products := [{ pid := 2, name_uz := "nok", price := 100,
                           sale_price := some 80, stock := 5, is_active := true }],
            cart := [],
            orders := [{ order_number := "OG-20250101-00001",
                         created_date := { year := 2025, month := 1, day := 1 },
                         subtotal := 80, discount_total := 0, total_price := 80,
                         total_items := 1,
                         items := [{ product := 2, product_name := "nok",
                                     quantity := 1, unit_price := 80,
                                     total_price := 80, is_sale_price := true }] }] } : State).orders
        = ([] : List OrderRec) ++ [o]
      ∧ ∀ oi ∈ o.items, ∃ p,
          findProduct [{ pid := 2, name_uz := "nok", price := 100,
                         sale_price := some 80, stock := 5, is_active := true }] oi.product = some p
          ∧ oi.unit_price = get_unit_price p
          ∧ oi.unit_price = (match p.sale_price with
              | some v => if v = 0 then p.price else v
              | none => p.price)
          ∧ oi.is_sale_price = is_sale_flag p := by
  have hrun : checkoutCreate
      { products := [{ pid := 2, name_uz := "nok", price := 100,
                       sale_price := some 80, stock := 5, is_active := true }],
        cart := [{ item_id := 1, product := 2, quantity := 1 }],
        orders := [] }
      { year := 2025, month := 1, day := 1 }
      = .ok { products := [{ pid := 2, name_uz := "nok", price := 100,
                             sale_price := some 80, stock := 4, is_active := true }],
              cart := [],
              orders := [{ order_number := "OG-20250101-00001",
                           created_date := { year := 2025, month := 1, day := 1 },
                           subtotal := 80, discount_total := 0, total_price := 80,
                           total_items := 1,
                           items := [{ product := 2, product_name := "nok",
                                       quantity := 1, unit_price := 80,
                                       total_price := 80, is_sale_price := true }] }] } := by
    decide
  have hw := c2_unit_price_commit_time _ _ _ hrun
  exact hw

theorem sum_mkOrderItems (ps : List Product) (items : List CartItem) :
    ((items.map (mkOrderItem ps)).map (fun oi => oi.total_price)).sum
      = cartSubtotal ps items := by
  rw [List.map_map]
  unfold cartSubtotal
  have h : ∀ it ∈ items, ((fun oi => oi.total_price) ∘ mkOrderItem ps) it
      = unitPriceOf ps it * (it.quantity : Int) := by
    intro it _
    show (mkOrderItem ps it).total_price = _
    simp [mkOrderItem, orderItem_save, mul_comm]
  rw [List.map_congr_left h]

/-- C5: `Order.save` recomputes `total_price = subtotal - discount_total`
on every persist, `OrderItem.save` recomputes
`total_price = quantity * unit_price` on every persist, and for every
committed checkout the new order satisfies
`total_price = subtotal - discount_total` and
`sum(OrderLine.total_price) = subtotal`. -/
theorem c5_totals :
    (∀ (orders : List OrderRec) (d : Date) (o : OrderRec),
        (order_save orders d o).total_price = o.subtotal - o.discount_total)
    ∧ (∀ oi : OrderItemRec,
        (orderItem_save oi).total_price = (oi.quantity : Int) * oi.unit_price)
    ∧ (∀ (s : State) (d : Date) (s1 : State), checkoutCreate s d = .ok s1 →
        ∃ o, s1.orders = s.orders ++ [o]
          ∧ o.total_price = o.subtotal - o.discount_total
          ∧ (o.items.map (fun oi => oi.total_price)).sum = o.subtotal
          ∧ ∀ oi ∈ o.items, oi.total_price = (oi.quantity : Int) * oi.unit_price) := by
  refine ⟨?_, fun oi => rfl, ?_⟩
  · intro orders d o
    unfold order_save
    dsimp only
    by_cases hb : o.order_number = ""
    · rw [if_pos hb]
    · rw [if_neg hb]
  · intro s d s1 h
    obtain ⟨hne, hpres, herrs, hs1⟩ := checkoutCreate_ok_elim s d s1 h
    refine ⟨checkoutOrder s d, by rw [hs1], ?_, ?_, ?_⟩
    · rw [checkoutOrder_spec]
    · rw [checkoutOrder_spec]
      exact sum_mkOrderItems s.products (sortCart s.cart)
    · intro oi hoi
      rw [checkoutOrder_spec] at hoi
      dsimp only at hoi
      obtain ⟨it, hit, hoieq⟩ := List.mem_map.mp hoi
      subst hoieq
      rfl

/-- Witness for C5: the concrete scenario of the spec (stock 5, price
10000, quantity 3) commits with `total_price = 30000 = subtotal -
discount_total` and the single line total summing to the subtotal. -/
theorem c5_totals_witness :
    ∃ o, ({ products := [{ pid := 1, name_uz := "olma", price := 10000,
                           sale_price := none, stock := 2, is_active := true }],
            cart := [],
            orders := [{ order_number := "OG-20250101-00001",
                         created_date := { year := 2025, month := 1, day := 1 },
                         subtotal := 30000, discount_total := 0, total_price := 30000,
                         total_items := 3,
                         items := [{ product := 1, product_name := "olma",
                                     quantity := 3, unit_price := 10000,
                                     total_price := 30000, is_sale_price := false }] }] } : State).orders
        = ([] : List OrderRec) ++ [o]
      ∧ o.total_price = o.subtotal - o.discount_total
      ∧ (o.items.map (fun oi => oi.total_price)).sum = o.subtotal
      ∧ ∀ oi ∈ o.items, oi.total_price = (oi.quantity : Int) * oi.unit_price := by
  have hrun : checkoutCreate
      { products := [{ pid := 1, name_uz := "olma", price := 10000,
                       sale_price := none, stock := 5, is_active := true }],
        cart := [{ item_id := 7, product := 1, quantity := 3 }],
        orders := [] }
      { year := 2025, month := 1, day := 1 }
      = .ok { products := [{ pid := 1, name_uz := "olma", price := 10000,
                             sale_price := none, stock := 2, is_active := true }],
              cart := [],
              orders := [{ order_number := "OG-20250101-00001",
                           created_date := { year := 2025, month := 1, day := 1 },
                           subtotal := 30000, discount_total := 0, total_price := 30000,
                           total_items := 3,
                           items := [{ product := 1, product_name := "olma",
                                       quantity := 3, unit_price := 10000,
                                       total_price := 30000, is_sale_price := false }] }] } := by
    decide
  have hw := (c5_totals.2.2) _ _ _ hrun
  exact hw
/-- C1: for a committed checkout, every product's stock is decremented by
exactly the total quantity its cart line requested (products outside the
cart are untouched); the transaction only commits after the under-lock
re-validation proved every line active and within current stock; and if
all stocks were non-negative before (with the database's uniqueness of
cart products and product pks), no stock is negative after. -/
theorem c1_checkout_stock_decrement (s : State) (d : Date) (s1 : State)
    (h : checkoutCreate s d = .ok s1) :
    s1.products = s.products.map (fun p =>
        { p with stock := p.stock - (cartQtyTotal s.cart p.pid : Int) })
    ∧ (∀ it ∈ s.cart, ∃ p, findProduct s.products it.product = some p
        ∧ p.is_active = true ∧ (it.quantity : Int) ≤ p.stock)
    ∧ ((∀ p ∈ s.products, 0 ≤ p.stock) →
        (s.cart.map (fun x => x.product)).Nodup →
        (s.products.map (fun x => x.pid)).Nodup →
        ∀ p1 ∈ s1.products, 0 ≤ p1.stock) := by
  obtain ⟨hne, hpres, herrs, hs1⟩ := checkoutCreate_ok_elim s d s1 h
  have hprod : s1.products = s.products.map (fun p =>
      { p with stock := p.stock - (cartQtyTotal s.cart p.pid : Int) }) := by
    rw [hs1]
    dsimp only
    rw [decrementStocks_eq]
    apply List.map_congr_left
    intro p _
    rw [cartQtyTotal_sortCart]
  have hvalid : ∀ it ∈ s.cart, ∃ p, findProduct s.products it.product = some p
      ∧ p.is_active = true ∧ (it.quantity : Int) ≤ p.stock := by
    intro it hit
    have hsome := hpres it hit
    cases hopt : findProduct s.products it.product with
    | none => rw [hopt] at hsome; simp at hsome
    | some p =>
      have hse := stockErrorsOf_nil_elim s.products (sortCart s.cart) herrs it
        ((sortCart_mem _ _).mpr hit) p hopt
      exact ⟨p, rfl, hse.1, hse.2⟩
  refine ⟨hprod, hvalid, ?_⟩
  intro h0 hndc hndp p1 hp1
  rw [hprod] at hp1
  obtain ⟨p, hp, hpe⟩ := List.mem_map.mp hp1
  subst hpe
  show 0 ≤ p.stock - (cartQtyTotal s.cart p.pid : Int)
  by_cases hex : ∃ it ∈ s.cart, it.product = p.pid
  · obtain ⟨it, hit, hitp⟩ := hex
    have hq : cartQtyTotal s.cart p.pid = it.quantity := by
      rw [← hitp]
      exact cartQtyTotal_nodup_mem s.cart it hndc hit
    obtain ⟨p2, hp2, hact2, hle2⟩ := hvalid it hit
    have hfp : findProduct s.products p.pid = some p :=
      findProduct_nodup s.products p hndp hp
    rw [hitp, hfp] at hp2
    injection hp2 with hp2e
    rw [← hp2e] at hle2
    rw [hq]
    omega
  · push_neg at hex
    have hz : cartQtyTotal s.cart p.pid = 0 := cartQtyTotal_eq_zero s.cart p.pid hex
    have hnn := h0 p hp
    rw [hz]
    omega

/-- Witness for C1: a checkout of 4 units against stock 4 commits, leaves
the product's stock at `4 - 4 = 0`, and no stock is negative. -/
theorem c1_checkout_stock_decrement_witness :
    ({ products := [{ pid := 1, name_uz := "olma", price := 100,
                      sale_price := none, stock := 0, is_active := true }],
       cart := [],
       orders := [{ order_number := "OG-20250101-00001",
                    created_date := { year := 2025, month := 1, day := 1 },
                    subtotal := 400, discount_total := 0, total_price := 400,
                    total_items := 4,
                    items := [{ product := 1, product_name := "olma",
                                quantity := 4, unit_price := 100,
                                total_price := 400, is_sale_price := false }] }] } : State).products
      = ([{ pid := 1, name_uz := "olma", price := 100,
            sale_price := none, stock := 4, is_active := true }] : List Product).map
          (fun p => { p with stock := p.stock -
                        (cartQtyTotal [{ item_id := 7, product := 1, quantity := 4 }] p.pid : Int) })
    ∧ ∀ p1 ∈ ({ products := [{ pid := 1, name_uz := "olma", price := 100, sale_price := none, stock := 0, is_active := true }],
                cart := [],
                orders := [{ order_number := "OG-20250101-00001",
                             created_date := { year := 2025, month := 1, day := 1 },
                             subtotal := 400, discount_total := 0, total_price := 400,
                             total_items := 4,
                             items := [{ product := 1, product_name := "olma",
                                         quantity := 4, unit_price := 100,
                                         total_price := 400, is_sale_price := false }] }] } : State).products,
        0 ≤ p1.stock := by
  have hrun : checkoutCreate
      { products := [{ pid := 1, name_uz := "olma", price := 100,
                       sale_price := none, stock := 4, is_active := true }],
        cart := [{ item_id := 7, product := 1, quantity := 4 }],
        orders := [] }
      { year := 2025, month := 1, day := 1 }
      = .ok { products := [{ pid := 1, name_uz := "olma", price := 100,
                             sale_price := none, stock := 0, is_active := true }],
              cart := [],
              orders := [{ order_number := "OG-20250101-00001",
                           created_date := { year := 2025, month := 1, day := 1 },
                           subtotal := 400, discount_total := 0, total_price := 400,
                           total_items := 4,
                           items := [{ product := 1, product_name := "olma",
                                       quantity := 4, unit_price := 100,
                                       total_price := 400, is_sale_price := false }] }] } := by
    decide
  have hw := c1_checkout_stock_decrement _ _ _ hrun
  exact ⟨hw.1, hw.2.2 (by decide) (by decide) (by decide)⟩

/-- C4: a checkout that fails persists nothing — the product table, the
cart lines and the order table are exactly as before (`transaction.atomic`
rolls back); an empty cart fails with `emptyCart`, and a cart failing the
under-lock stock re-validation fails with the collected stock errors. -/
theorem c4_failed_checkout_rolls_back :
    (∀ (s : State) (d : Date) (st : State) (e : CheckoutError),
        checkoutRequest s d = (st, some e) →
        st.products = s.products ∧ st.cart = s.cart ∧ st.orders = s.orders)
    ∧ (∀ (s : State) (d : Date), s.cart = [] →
        checkoutRequest s d = (s, some .emptyCart))
    ∧ (∀ (s : State) (d : Date),
        s.cart ≠ [] →
        (∀ it ∈ s.cart, (findProduct s.products it.product).isSome) →
        stockErrorsOf s.products (sortCart s.cart) ≠ [] →
        checkoutRequest s d
          = (s, some (.stockErrors (stockErrorsOf s.products (sortCart s.cart))))) := by
  refine ⟨?_, ?_, ?_⟩
  · intro s d st e h
    have hst := checkoutRequest_error_state s d st e h
    subst hst
    exact ⟨rfl, rfl, rfl⟩
  · intro s d h
    unfold checkoutRequest
    rw [checkoutCreate_empty s d h]
  · intro s d h1 h2 h3
    unfold checkoutRequest
    rw [checkoutCreate_stock_error s d h1 h2 h3]

/-- Witness for C4: an empty cart and an insufficient-stock cart both fail
and leave the state unchanged. -/
theorem c4_failed_checkout_rolls_back_witness :
    checkoutRequest
        { products := [], cart := [], orders := [] }
        { year := 2025, month := 1, day := 1 }
      = ({ products := [], cart := [], orders := [] }, some .emptyCart)
    ∧ checkoutRequest
        { products := [{ pid := 1, name_uz := "olma", price := 100,
                         sale_price := none, stock := 1, is_active := true }],
          cart := [{ item_id := 7, product := 1, quantity := 5 }],
          orders := [] }
        { year := 2025, month := 1, day := 1 }
      = ({ products := [{ pid := 1, name_uz := "olma", price := 100,
                          sale_price := none, stock := 1, is_active := true }],
           cart := [{ item_id := 7, product := 1, quantity := 5 }],
           orders := [] },
         some (.stockErrors (stockErrorsOf
           [{ pid := 1, name_uz := "olma", price := 100,
              sale_price := none, stock := 1, is_active := true }]
           (sortCart [{ item_id := 7, product := 1, quantity := 5 }])))) :=
  ⟨c4_failed_checkout_rolls_back.2.1
     { products := [], cart := [], orders := [] }
     { year := 2025, month := 1, day := 1 } rfl,
   c4_failed_checkout_rolls_back.2.2
     { products := [{ pid := 1, name_uz := "olma", price := 100,
                      sale_price := none, stock := 1, is_active := true }],
       cart := [{ item_id := 7, product := 1, quantity := 5 }],
       orders := [] }
     { year := 2025, month := 1, day := 1 }
     (by decide) (by decide) (by decide)⟩
